import Mathlib

/-!
Shallow embedding of the RTCP-mux media-transport decorator
(`transport_mux.c` / `transport_mux.h`).

Pointers are modelled by small inductive "pointer value" types with an
explicit `null` constructor; the member transport's operations are
modelled at their interface boundary as status-returning oracles passed
in as function arguments; dereferencing a null pointer is made explicit
as a distinguished `nullDeref` outcome.  Statuses are `Int` as in pjlib
(`pj_status_t`), with `PJ_SUCCESS = 0` and `PJ_EINVAL = 70004`.
-/

namespace TransportMux

/-- `pj_status_t`. -/
abbrev pj_status_t := Int

/-- `PJ_SUCCESS`. -/
def PJ_SUCCESS : pj_status_t := 0

/-- `PJ_EINVAL = PJ_ERRNO_START_STATUS + 4 = 70004`. -/
def PJ_EINVAL : pj_status_t := 70004

/-- A packet payload: the byte buffer, one `Nat` (0..255) per octet. -/
abbrev Packet := List Nat

/-- `void *` user-data pointer values: NULL, the mux transport's own
address (as substituted into the shadow attach parameters), or an
arbitrary consumer-provided pointer (indexed by a `Nat`). -/
inductive UserDataVal
  | null
  | muxRef
  | consumer (n : Nat)
deriving DecidableEq, Repr

/-- RTP/RTCP callback function-pointer values: NULL, the decorator's two
internal dispatch routines (`&mux_rtp_cb`, `&mux_rtcp_cb`), or an
arbitrary consumer-provided callback (indexed by a `Nat`). -/
inductive CbVal
  | null
  | muxRtpCb
  | muxRtcpCb
  | consumer (n : Nat)
deriving DecidableEq, Repr

/-- The `transport_mux` struct's mutable fields relevant to the claims:
the stored consumer callback triple, whether the member-transport
reference is non-NULL, and the `member_tp_attached` flag. -/
structure transport_mux where
  user_data : UserDataVal
  rtp_cb : CbVal
  rtcp_cb : CbVal
  member_tp : Bool
  member_tp_attached : Bool
deriving DecidableEq, Repr

/-- The state produced by `pjmedia_transport_mux_create` for valid
arguments: `PJ_POOL_ZALLOC_T` zeroes the struct (callback triple NULL,
`member_tp_attached` false) and `mux->member_tp = tp` stores the
member-transport reference (asserted non-NULL on entry). -/
def pjmedia_transport_mux_create : transport_mux :=
  { user_data := .null, rtp_cb := .null, rtcp_cb := .null,
    member_tp := true, member_tp_attached := false }

/-- Outcome of one inbound dispatch: either some callback function
pointer was invoked with a user-data value, the packet bytes and the
(signed `pj_ssize_t`) size, or a NULL function pointer was called. -/
inductive DispatchResult
  | invoked (cb : CbVal) (user_data : UserDataVal) (pkt : Packet) (size : Int)
  | nullDeref
deriving DecidableEq, Repr

/-- Invoking a stored callback pointer: calling NULL is a null
dereference, otherwise the callback is invoked with the given
arguments. -/
def callCb (cb : CbVal) (ud : UserDataVal) (pkt : Packet) (size : Int) :
    DispatchResult :=
  if cb = CbVal.null then .nullDeref else .invoked cb ud pkt size

/-- `mux_rtp_cb`: the RTP-path dispatch routine installed on the member
transport.  `int type = (size >= 2) ? ((data[1]) & 0x7F) : 0;` then
`type ∈ [64, 96)` routes to `mux->rtp_cb`, anything else to
`mux->rtcp_cb`, in both cases with `mux->user_data` and the unmodified
`pkt`/`size`.  `data[1]` is the second byte of the buffer (the model
reads it from the byte list; a call with `size ≥ 2` is only meaningful
when the buffer has at least two bytes). -/
def mux_rtp_cb (mux : transport_mux) (pkt : Packet) (size : Int) :
    DispatchResult :=
  let type : Nat := if 2 ≤ size then (pkt.getD 1 0) &&& 0x7F else 0
  if 64 ≤ type ∧ type < 96 then
    callCb mux.rtp_cb mux.user_data pkt size
  else
    callCb mux.rtcp_cb mux.user_data pkt size

/-- `mux_rtcp_cb`: the RTCP-path dispatch routine; unconditionally
routes to `mux->rtcp_cb` with `mux->user_data`. -/
def mux_rtcp_cb (mux : transport_mux) (pkt : Packet) (size : Int) :
    DispatchResult :=
  callCb mux.rtcp_cb mux.user_data pkt size

/-- `pjmedia_transport_attach_param`, split into the three fields the
decorator rewrites (`user_data`, `rtp_cb`, `rtcp_cb`) and an opaque
`rest` standing for every other field (`rem_addr`, `rem_rtcp`,
`addr_len`, ...), which the decorator copies verbatim. -/
structure attach_param where
  user_data : UserDataVal
  rtp_cb : CbVal
  rtcp_cb : CbVal
  rest : Nat
deriving DecidableEq, Repr

/-- The shadow attach-parameter set forwarded to the member transport:
`member_param = *param;` then `user_data := mux`,
`rtp_cb := &mux_rtp_cb`, `rtcp_cb := &mux_rtcp_cb`; all other fields
are kept from the consumer's parameters. -/
def member_attach_param (param : attach_param) : attach_param :=
  { param with
      user_data := .muxRef, rtp_cb := .muxRtpCb, rtcp_cb := .muxRtcpCb }

/-- `transport_attach2`: stores the consumer's callback triple, forwards
the shadow attach to the member transport (modelled as the oracle
`memberAttach`); on member success sets `member_tp_attached` and
returns `PJ_SUCCESS`, on member failure clears the stored triple
(leaving `member_tp_attached` untouched) and returns the member's
status. -/
def transport_attach2 (memberAttach : attach_param → pj_status_t)
    (mux : transport_mux) (param : attach_param) :
    transport_mux × pj_status_t :=
  if memberAttach (member_attach_param param) = PJ_SUCCESS then
    ({ mux with
         rtp_cb := param.rtp_cb, rtcp_cb := param.rtcp_cb,
         user_data := param.user_data, member_tp_attached := true },
     PJ_SUCCESS)
  else
    ({ mux with rtp_cb := .null, rtcp_cb := .null, user_data := .null },
     memberAttach (member_attach_param param))

/-- `transport_detach`: if a member transport exists, forwards
`pjmedia_transport_detach(mux->member_tp, mux)` with the MuxTransport
itself as the detach token (second component: the forwarded token, or
`none` when no member reference exists); then clears the callback
triple and sets `member_tp_attached` to false. -/
def transport_detach (mux : transport_mux) :
    transport_mux × Option UserDataVal :=
  ({ mux with
       rtp_cb := .null, rtcp_cb := .null, user_data := .null,
       member_tp_attached := false },
   if mux.member_tp then some UserDataVal.muxRef else none)

/-- The spec's callback-triple invariant: either unattached with all
three consumer values cleared, or attached with all three non-null. -/
def callbackInv (s : transport_mux) : Prop :=
  (s.member_tp_attached = false ∧ s.rtp_cb = CbVal.null ∧
   s.rtcp_cb = CbVal.null ∧ s.user_data = UserDataVal.null) ∨
  (s.member_tp_attached = true ∧ s.rtp_cb ≠ CbVal.null ∧
   s.rtcp_cb ≠ CbVal.null ∧ s.user_data ≠ UserDataVal.null)

instance : DecidablePred callbackInv := fun s => by
  unfold callbackInv; infer_instance

/-- Result of an operation on a possibly-NULL transport pointer: the
returned status, or an unchecked NULL dereference. -/
inductive CallResult (α : Type)
  | ok (a : α)
  | nullDeref
deriving DecidableEq, Repr

/-- `transport_send_rtp`: no argument validation; dereferences
`mux->member_tp` and forwards `pkt`/`size` verbatim to the member
transport's RTP send operation (the oracle `memberSendRtp`). -/
def transport_send_rtp (memberSendRtp : Packet → Nat → pj_status_t)
    (tp : Option transport_mux) (pkt : Packet) (size : Nat) :
    CallResult pj_status_t :=
  match tp with
  | none => .nullDeref
  | some mux =>
      if mux.member_tp then .ok (memberSendRtp pkt size) else .nullDeref

/-- `transport_send_rtcp2`: no argument validation; ignores `addr` and
`addr_len` entirely and forwards `pkt`/`size` to the member transport's
RTP send operation. -/
def transport_send_rtcp2 (memberSendRtp : Packet → Nat → pj_status_t)
    (tp : Option transport_mux) (addr : Option Nat) (addr_len : Nat)
    (pkt : Packet) (size : Nat) : CallResult pj_status_t :=
  match tp with
  | none => .nullDeref
  | some mux =>
      if mux.member_tp then .ok (memberSendRtp pkt size) else .nullDeref

/-- `transport_send_rtcp`: defined as
`transport_send_rtcp2(tp, NULL, 0, pkt, size)`. -/
def transport_send_rtcp (memberSendRtp : Packet → Nat → pj_status_t)
    (tp : Option transport_mux) (pkt : Packet) (size : Nat) :
    CallResult pj_status_t :=
  transport_send_rtcp2 memberSendRtp tp none 0 pkt size

/-- `transport_get_info`: no argument validation; forwards to the member
transport (oracle result `memberGetInfo`). -/
def transport_get_info (memberGetInfo : pj_status_t)
    (tp : Option transport_mux) : CallResult pj_status_t :=
  match tp with
  | none => .nullDeref
  | some mux => if mux.member_tp then .ok memberGetInfo else .nullDeref

/-- An SDP attribute: a name and an optional value
(`pjmedia_sdp_attr_create(pool, name, NULL)` yields a value-less
attribute). -/
structure sdp_attr where
  name : String
  value : Option String
deriving DecidableEq, Repr

/-- The `"rtcp-mux"` attribute injected by the decorator
(`ID_RTCPMUX`, value NULL). -/
def rtcpMuxAttr : sdp_attr := { name := "rtcp-mux", value := none }

/-- An SDP media description: its attribute list plus an opaque `desc`
standing for the rest of the media line (formats, connection, ...). -/
structure sdp_media where
  desc : Nat
  attrs : List sdp_attr
deriving DecidableEq, Repr

/-- An SDP session description: its list of media descriptions
(`media[0..media_count)`). -/
structure sdp_session where
  media : List sdp_media
deriving DecidableEq, Repr

/-- `pjmedia_sdp_media_add_attr` (external collaborator, modelled at its
interface boundary): appends the attribute to the media line. -/
def pjmedia_sdp_media_add_attr (m : sdp_media) (a : sdp_attr) :
    sdp_media :=
  { m with attrs := m.attrs ++ [a] }

/-- Number of `"rtcp-mux"` attributes on a media line. -/
def rtcpMuxCount (m : sdp_media) : Nat :=
  m.attrs.countP (fun a => a.name == "rtcp-mux")

/-- `transport_media_create`: no argument validation; forwards
`sdp_pool`, `options`, `sdp_remote`, `media_index` verbatim to the
member transport. -/
def transport_media_create
    (memberMediaCreate :
      Option Nat → Nat → Option sdp_session → Nat → pj_status_t)
    (tp : Option transport_mux) (sdp_pool : Option Nat) (options : Nat)
    (sdp_remote : Option sdp_session) (media_index : Nat) :
    CallResult pj_status_t :=
  match tp with
  | none => .nullDeref
  | some mux =>
      if mux.member_tp then
        .ok (memberMediaCreate sdp_pool options sdp_remote media_index)
      else .nullDeref

/-- Result of `transport_encode_sdp`: the returned status together with
the (possibly absent) local session description after the call, or the
unchecked `sdp_local->media[media_index]` access falling outside the
valid media range, or a NULL member-transport dereference. -/
inductive EncodeResult
  | ret (status : pj_status_t) (sdp_local : Option sdp_session)
  | mediaIndexOutOfBounds
  | nullDeref
deriving DecidableEq, Repr

/-- `transport_encode_sdp`: `PJ_ASSERT_RETURN(tp && sdp_pool &&
sdp_local, PJ_EINVAL)`; then reads
`m_loc = sdp_local->media[media_index]` with no bounds check, *before*
forwarding; then forwards to the member transport's encode (modelled at
its interface boundary as the status oracle `memberEncodeSdp`); then —
regardless of that status — appends the `"rtcp-mux"` attribute to
`m_loc` and returns the member's status. -/
def transport_encode_sdp
    (memberEncodeSdp :
      sdp_session → Option sdp_session → Nat → pj_status_t)
    (tp : Option transport_mux) (sdp_pool : Option Nat)
    (sdp_local : Option sdp_session) (sdp_remote : Option sdp_session)
    (media_index : Nat) : EncodeResult :=
  match tp, sdp_pool, sdp_local with
  | some mux, some _, some loc =>
      match loc.media[media_index]? with
      | none => EncodeResult.mediaIndexOutOfBounds
      | some m_loc =>
          if mux.member_tp then
            let m2 := pjmedia_sdp_media_add_attr m_loc rtcpMuxAttr
            EncodeResult.ret (memberEncodeSdp loc sdp_remote media_index)
              (some { loc with media := loc.media.set media_index m2 })
          else EncodeResult.nullDeref
  | _, _, _ => EncodeResult.ret PJ_EINVAL sdp_local

/-- `transport_media_start`: `PJ_ASSERT_RETURN(tp && pool && sdp_local
&& sdp_remote, PJ_EINVAL)`, then forwards verbatim to the member
transport. -/
def transport_media_start
    (memberMediaStart :
      Nat → sdp_session → sdp_session → Nat → pj_status_t)
    (tp : Option transport_mux) (pool : Option Nat)
    (sdp_local : Option sdp_session) (sdp_remote : Option sdp_session)
    (media_index : Nat) : CallResult pj_status_t :=
  match tp, pool, sdp_local, sdp_remote with
  | some mux, some pl, some loc, some rem =>
      if mux.member_tp then
        .ok (memberMediaStart pl loc rem media_index)
      else .nullDeref
  | _, _, _, _ => .ok PJ_EINVAL

/-- `transport_media_stop`: `PJ_ASSERT_RETURN(tp, PJ_EINVAL)`, then
forwards to the member transport; a failure is additionally logged but
the member's status is returned unaltered. -/
def transport_media_stop (memberMediaStop : pj_status_t)
    (tp : Option transport_mux) : CallResult pj_status_t :=
  match tp with
  | none => .ok PJ_EINVAL
  | some mux => if mux.member_tp then .ok memberMediaStop else .nullDeref

/-- `transport_simulate_lost`: `PJ_ASSERT_RETURN(tp, PJ_EINVAL)`, then
forwards `dir`/`pct_lost` verbatim to the member transport. -/
def transport_simulate_lost (memberSimulateLost : Nat → Nat → pj_status_t)
    (tp : Option transport_mux) (dir : Nat) (pct_lost : Nat) :
    CallResult pj_status_t :=
  match tp with
  | none => .ok PJ_EINVAL
  | some mux =>
      if mux.member_tp then .ok (memberSimulateLost dir pct_lost)
      else .nullDeref

/-- A sample attached state used for concrete evaluations. -/
def sampleAttached : transport_mux :=
  { user_data := .consumer 7, rtp_cb := .consumer 1,
    rtcp_cb := .consumer 2, member_tp := true,
    member_tp_attached := true }

/-- Sample consumer attach parameters. -/
def sampleParam : attach_param :=
  { user_data := .consumer 7, rtp_cb := .consumer 1,
    rtcp_cb := .consumer 2, rest := 5 }

/-- A member-transport attach oracle that always fails with a fixed
non-success status. -/
def failingMemberAttach : attach_param → pj_status_t := fun _ => 70013

/-- A member-transport attach oracle that always succeeds. -/
def succeedingMemberAttach : attach_param → pj_status_t :=
  fun _ => PJ_SUCCESS

/-- Consumer attach parameters carrying a NULL `user_data`. -/
def nullUserDataParam : attach_param :=
  { user_data := .null, rtp_cb := .consumer 1, rtcp_cb := .consumer 2,
    rest := 0 }

/-- A sample local session description with one media line and no
attributes. -/
def sampleSdp : sdp_session := { media := [{ desc := 0, attrs := [] }] }

/-- A media line already carrying one `"rtcp-mux"` attribute. -/
def oneRtcpMuxMedia : sdp_media := { desc := 0, attrs := [rtcpMuxAttr] }

end TransportMux

namespace TransportMux

/-- C1: while the consumer is attached (both stored callbacks non-null),
the RTP-path dispatch routes a packet with `size ≥ 2` and
`(data[1] & 0x7F) ∈ [64, 96)` to the stored RTP callback and everything
else (including `size < 2`, where the type field is taken as 0) to the
stored RTCP callback, in both cases invoking it with the stored
consumer `user_data` and the unmodified packet bytes and size. -/
theorem mux_rtp_cb_routes (mux : transport_mux) (pkt : Packet) (size : Int)
    (ha : mux.rtp_cb ≠ CbVal.null) (hb : mux.rtcp_cb ≠ CbVal.null) :
    mux_rtp_cb mux pkt size =
      (if 2 ≤ size ∧ 64 ≤ ((pkt.getD 1 0) &&& 0x7F) ∧
          ((pkt.getD 1 0) &&& 0x7F) < 96 then
        DispatchResult.invoked mux.rtp_cb mux.user_data pkt size
      else
        DispatchResult.invoked mux.rtcp_cb mux.user_data pkt size) := by
  unfold mux_rtp_cb
  by_cases hsz : 2 ≤ size
  · simp only [hsz, if_true, true_and]
    split
    · simp [callCb, ha]
    · simp [callCb, hb]
  · have h0 : ¬ (64 ≤ (0 : Nat) ∧ (0 : Nat) < 96) := by decide
    simp [hsz, h0, callCb, hb]

/-- Witness for C1 at the boundary cases: with a concrete attached
state, masked type 64 and 95 route to the RTP callback, 63 and 96 to
the RTCP callback, and a zero-length packet routes to the RTCP
callback. -/
theorem mux_rtp_cb_routes_witness :
    mux_rtp_cb sampleAttached [0x80, 64] 2 =
        .invoked (.consumer 1) (.consumer 7) [0x80, 64] 2 ∧
    mux_rtp_cb sampleAttached [0x80, 95] 2 =
        .invoked (.consumer 1) (.consumer 7) [0x80, 95] 2 ∧
    mux_rtp_cb sampleAttached [0x80, 63] 2 =
        .invoked (.consumer 2) (.consumer 7) [0x80, 63] 2 ∧
    mux_rtp_cb sampleAttached [0x80, 96] 2 =
        .invoked (.consumer 2) (.consumer 7) [0x80, 96] 2 ∧
    mux_rtp_cb sampleAttached [] 0 =
        .invoked (.consumer 2) (.consumer 7) [] 0 := by
  refine ⟨?_, ?_, ?_, ?_, ?_⟩ <;>
    rw [mux_rtp_cb_routes sampleAttached _ _ (by decide) (by decide)] <;>
    decide

/-- C2: when the member transport's attach fails and the instance was
unattached, afterwards all three stored consumer values are cleared,
`member_tp_attached` remains false, and the call returns the member
transport's failure status unchanged. -/
theorem transport_attach2_failure_rollback
    (f : attach_param → pj_status_t) (mux : transport_mux)
    (param : attach_param)
    (hpre : mux.member_tp_attached = false)
    (hfail : f (member_attach_param param) ≠ PJ_SUCCESS) :
    (transport_attach2 f mux param).1.rtp_cb = CbVal.null ∧
    (transport_attach2 f mux param).1.rtcp_cb = CbVal.null ∧
    (transport_attach2 f mux param).1.user_data = UserDataVal.null ∧
    (transport_attach2 f mux param).1.member_tp_attached = false ∧
    (transport_attach2 f mux param).2 = f (member_attach_param param) := by
  unfold transport_attach2
  simp [hfail, hpre]

/-- Witness for C2: a freshly created instance whose member transport
rejects the attach with status 70013. -/
theorem transport_attach2_failure_rollback_witness :
    pjmedia_transport_mux_create.member_tp_attached = false ∧
    failingMemberAttach (member_attach_param sampleParam) ≠ PJ_SUCCESS ∧
    ((transport_attach2 failingMemberAttach pjmedia_transport_mux_create
        sampleParam).1.rtp_cb = CbVal.null ∧
     (transport_attach2 failingMemberAttach pjmedia_transport_mux_create
        sampleParam).1.rtcp_cb = CbVal.null ∧
     (transport_attach2 failingMemberAttach pjmedia_transport_mux_create
        sampleParam).1.user_data = UserDataVal.null ∧
     (transport_attach2 failingMemberAttach pjmedia_transport_mux_create
        sampleParam).1.member_tp_attached = false ∧
     (transport_attach2 failingMemberAttach pjmedia_transport_mux_create
        sampleParam).2 =
        failingMemberAttach (member_attach_param sampleParam)) :=
  ⟨by decide, by decide,
   transport_attach2_failure_rollback failingMemberAttach
     pjmedia_transport_mux_create sampleParam (by decide) (by decide)⟩

/-- C6: detach clears the callback triple and resets
`member_tp_attached`, leaves the member-transport reference as it was,
forwards detach to the member transport with the MuxTransport itself as
the token exactly when a member reference exists, and on a
never-attached (cleared, unattached) instance leaves the state
unchanged. -/
theorem transport_detach_spec (mux : transport_mux) :
    (transport_detach mux).1.rtp_cb = CbVal.null ∧
    (transport_detach mux).1.rtcp_cb = CbVal.null ∧
    (transport_detach mux).1.user_data = UserDataVal.null ∧
    (transport_detach mux).1.member_tp_attached = false ∧
    (transport_detach mux).1.member_tp = mux.member_tp ∧
    (transport_detach mux).2 =
      (if mux.member_tp then some UserDataVal.muxRef else none) ∧
    (mux.rtp_cb = CbVal.null ∧ mux.rtcp_cb = CbVal.null ∧
     mux.user_data = UserDataVal.null ∧ mux.member_tp_attached = false →
       (transport_detach mux).1 = mux) := by
  unfold transport_detach
  refine ⟨rfl, rfl, rfl, rfl, rfl, rfl, ?_⟩
  rintro ⟨h1, h2, h3, h4⟩
  cases mux
  simp_all

/-- Witness for C6: detaching a freshly created, never-attached
instance leaves its state unchanged while still forwarding the detach
token to the member transport. -/
theorem transport_detach_spec_witness :
    (transport_detach pjmedia_transport_mux_create).1 =
      pjmedia_transport_mux_create ∧
    (transport_detach pjmedia_transport_mux_create).2 =
      some UserDataVal.muxRef :=
  ⟨(transport_detach_spec pjmedia_transport_mux_create).2.2.2.2.2.2
      (by decide),
   by decide⟩

/-- C7: on a successful attach, the parameter set forwarded to the
member transport differs from the consumer's parameters in exactly
three fields — `user_data` becomes the MuxTransport itself, the RTP and
RTCP callbacks become the decorator's two dispatch routines — while
every other field is forwarded unchanged; the returned status is the
member transport's response to exactly this shadow parameter set. -/
theorem transport_attach2_shadow_param
    (f : attach_param → pj_status_t) (mux : transport_mux)
    (param : attach_param)
    (hok : (transport_attach2 f mux param).2 = PJ_SUCCESS) :
    (member_attach_param param).user_data = UserDataVal.muxRef ∧
    (member_attach_param param).rtp_cb = CbVal.muxRtpCb ∧
    (member_attach_param param).rtcp_cb = CbVal.muxRtcpCb ∧
    (member_attach_param param).rest = param.rest ∧
    (transport_attach2 f mux param).2 = f (member_attach_param param) := by
  refine ⟨rfl, rfl, rfl, rfl, ?_⟩
  unfold transport_attach2 at hok ⊢
  split
  · next h => exact h.symm
  · rfl

/-- C8 counterexample: the claimed invariant is not preserved by every
attach call.  (a) From a reachable attached state with all three
consumer values set, an attach whose member attach fails clears the
triple but leaves `member_tp_attached` true.  (b) From a freshly
created state, a successful attach whose parameters carry a NULL
`user_data` yields an attached state whose triple is only partially
set. -/
theorem callbackInv_not_preserved_counterexample :
    (callbackInv sampleAttached ∧
     ¬ callbackInv
        (transport_attach2 failingMemberAttach sampleAttached
          sampleParam).1) ∧
    (callbackInv pjmedia_transport_mux_create ∧
     ¬ callbackInv
        (transport_attach2 succeedingMemberAttach
          pjmedia_transport_mux_create nullUserDataParam).1) := by
  decide

/-- C8 (amended): the callback-triple invariant holds of a freshly
created instance, is preserved unconditionally by detach (the dispatch
routines only read the triple and keep no state), and is preserved by
attach whenever attach is invoked on an unattached instance with
attach parameters whose two callbacks and user data are all
non-null. -/
theorem callbackInv_preserved_amended
    (f : attach_param → pj_status_t) (s : transport_mux) (p : attach_param)
    (hpre : s.member_tp_attached = false)
    (hrtp : p.rtp_cb ≠ CbVal.null) (hrtcp : p.rtcp_cb ≠ CbVal.null)
    (hud : p.user_data ≠ UserDataVal.null) :
    callbackInv pjmedia_transport_mux_create ∧
    (∀ t : transport_mux, callbackInv (transport_detach t).1) ∧
    callbackInv (transport_attach2 f s p).1 := by
  refine ⟨by decide, ?_, ?_⟩
  · intro t
    exact Or.inl ⟨rfl, rfl, rfl, rfl⟩
  · unfold transport_attach2
    split
    · exact Or.inr ⟨rfl, hrtp, hrtcp, hud⟩
    · exact Or.inl ⟨hpre, rfl, rfl, rfl⟩

/-- Witness for the amended C8: attaching the sample parameters to a
fresh instance through an always-succeeding member transport keeps the
invariant. -/
theorem callbackInv_preserved_amended_witness :
    (pjmedia_transport_mux_create.member_tp_attached = false ∧
     sampleParam.rtp_cb ≠ CbVal.null ∧
     sampleParam.rtcp_cb ≠ CbVal.null ∧
     sampleParam.user_data ≠ UserDataVal.null) ∧
    callbackInv (transport_attach2 succeedingMemberAttach
      pjmedia_transport_mux_create sampleParam).1 :=
  ⟨⟨by decide, by decide, by decide, by decide⟩,
   (callbackInv_preserved_amended succeedingMemberAttach
      pjmedia_transport_mux_create sampleParam (by decide) (by decide)
      (by decide) (by decide)).2.2⟩

/-- Witness for C7: a successful attach of the sample parameters on a
fresh instance. -/
theorem transport_attach2_shadow_param_witness :
    (transport_attach2 succeedingMemberAttach pjmedia_transport_mux_create
      sampleParam).2 = PJ_SUCCESS ∧
    ((member_attach_param sampleParam).user_data = UserDataVal.muxRef ∧
     (member_attach_param sampleParam).rtp_cb = CbVal.muxRtpCb ∧
     (member_attach_param sampleParam).rtcp_cb = CbVal.muxRtcpCb ∧
     (member_attach_param sampleParam).rest = sampleParam.rest ∧
     (transport_attach2 succeedingMemberAttach pjmedia_transport_mux_create
        sampleParam).2 =
       succeedingMemberAttach (member_attach_param sampleParam)) :=
  ⟨by decide,
   transport_attach2_shadow_param succeedingMemberAttach
     pjmedia_transport_mux_create sampleParam (by decide)⟩

/-- C5: `sendRtcp(pkt, size)` equals the addressed variant called with a
NULL address and zero address length, and both that variant and
`sendRtp` forward the identical payload and length, unmodified, to the
member transport's RTP send operation. -/
theorem transport_send_rtcp_spec
    (f : Packet → Nat → pj_status_t) (tp : Option transport_mux)
    (pkt : Packet) (size : Nat) :
    transport_send_rtcp f tp pkt size =
      transport_send_rtcp2 f tp none 0 pkt size ∧
    (∀ mux : transport_mux, mux.member_tp = true →
      transport_send_rtcp2 f (some mux) none 0 pkt size =
          CallResult.ok (f pkt size) ∧
      transport_send_rtp f (some mux) pkt size =
          CallResult.ok (f pkt size)) := by
  refine ⟨rfl, ?_⟩
  intro mux h
  unfold transport_send_rtcp2 transport_send_rtp
  simp [h]

/-- Witness for C5 on a concrete attached instance and member send
oracle. -/
theorem transport_send_rtcp_spec_witness :
    sampleAttached.member_tp = true ∧
    (transport_send_rtcp2 (fun _ _ => 42) (some sampleAttached) none 0
        [1, 2] 2 = CallResult.ok 42 ∧
     transport_send_rtp (fun _ _ => 42) (some sampleAttached) [1, 2] 2 =
        CallResult.ok 42) :=
  ⟨by decide,
   (transport_send_rtcp_spec (fun _ _ => 42) (some sampleAttached)
      [1, 2] 2).2 sampleAttached (by decide)⟩

/-- C9: the addressed `sendRtcp` variant ignores its destination address
and address-length arguments entirely — its result is identical to the
call with a NULL address and zero length — and the member transport is
always invoked through its RTP send operation with only the packet and
size. -/
theorem transport_send_rtcp2_ignores_addr
    (f : Packet → Nat → pj_status_t) (tp : Option transport_mux)
    (addr : Option Nat) (addr_len : Nat) (pkt : Packet) (size : Nat) :
    transport_send_rtcp2 f tp addr addr_len pkt size =
      transport_send_rtcp2 f tp none 0 pkt size ∧
    (∀ mux : transport_mux, mux.member_tp = true →
      transport_send_rtcp2 f (some mux) addr addr_len pkt size =
        CallResult.ok (f pkt size)) := by
  refine ⟨rfl, ?_⟩
  intro mux h
  unfold transport_send_rtcp2
  simp [h]

/-- Witness for C9: a concrete non-null address and length give the same
result as the NULL address. -/
theorem transport_send_rtcp2_ignores_addr_witness :
    transport_send_rtcp2 (fun _ _ => 42) (some sampleAttached) (some 99) 16
        [1, 2] 2 =
      transport_send_rtcp2 (fun _ _ => 42) (some sampleAttached) none 0
        [1, 2] 2 ∧
    transport_send_rtcp2 (fun _ _ => 42) (some sampleAttached) (some 99) 16
        [1, 2] 2 = CallResult.ok 42 :=
  ⟨(transport_send_rtcp2_ignores_addr (fun _ _ => 42) (some sampleAttached)
      (some 99) 16 [1, 2] 2).1,
   (transport_send_rtcp2_ignores_addr (fun _ _ => 42) (some sampleAttached)
      (some 99) 16 [1, 2] 2).2 sampleAttached (by decide)⟩

/-- C4 counterexample: with a NULL transport argument, `sendRtp`, both
`sendRtcp` variants, `getInfo` and `mediaCreate` perform no argument
validation — they dereference the NULL pointer instead of returning
`PJ_EINVAL`. -/
theorem forwarding_validation_counterexample :
    transport_send_rtp (fun _ _ => PJ_SUCCESS) none [] 0 =
        CallResult.nullDeref ∧
    transport_send_rtp (fun _ _ => PJ_SUCCESS) none [] 0 ≠
        CallResult.ok PJ_EINVAL ∧
    transport_send_rtcp (fun _ _ => PJ_SUCCESS) none [] 0 =
        CallResult.nullDeref ∧
    transport_send_rtcp2 (fun _ _ => PJ_SUCCESS) none none 0 [] 0 =
        CallResult.nullDeref ∧
    transport_get_info PJ_SUCCESS none = CallResult.nullDeref ∧
    transport_media_create (fun _ _ _ _ => PJ_SUCCESS) none none 0 none 0 =
        CallResult.nullDeref := by
  decide

/-- C4 (amended): only `mediaStart`, `mediaStop` and `simulateLoss`
validate their required arguments (returning `PJ_EINVAL` on a NULL
transport, and for `mediaStart` also on a NULL pool or session
description); `sendRtp`, both `sendRtcp` variants, `getInfo` and
`mediaCreate` perform no null-argument validation; all eight delegate
their arguments unchanged to the corresponding member-transport
operation and return its status verbatim. -/
theorem forwarding_ops_amended
    (fsend : Packet → Nat → pj_status_t) (ginfo mstop : pj_status_t)
    (fmc : Option Nat → Nat → Option sdp_session → Nat → pj_status_t)
    (fms : Nat → sdp_session → sdp_session → Nat → pj_status_t)
    (fsl : Nat → Nat → pj_status_t)
    (mux : transport_mux) (hmem : mux.member_tp = true)
    (pkt : Packet) (size : Nat) (addr : Option Nat) (addr_len : Nat)
    (pl : Nat) (loc rem : sdp_session) (plo : Option Nat)
    (ro : Option sdp_session) (i opts dir pct : Nat) :
    transport_simulate_lost fsl none dir pct = CallResult.ok PJ_EINVAL ∧
    transport_media_stop mstop none = CallResult.ok PJ_EINVAL ∧
    (∀ (t : Option transport_mux) (p : Option Nat)
        (l r : Option sdp_session),
      t = none ∨ p = none ∨ l = none ∨ r = none →
        transport_media_start fms t p l r i = CallResult.ok PJ_EINVAL) ∧
    transport_send_rtp fsend (some mux) pkt size =
        CallResult.ok (fsend pkt size) ∧
    transport_send_rtcp fsend (some mux) pkt size =
        CallResult.ok (fsend pkt size) ∧
    transport_send_rtcp2 fsend (some mux) addr addr_len pkt size =
        CallResult.ok (fsend pkt size) ∧
    transport_get_info ginfo (some mux) = CallResult.ok ginfo ∧
    transport_media_create fmc (some mux) plo opts ro i =
        CallResult.ok (fmc plo opts ro i) ∧
    transport_media_start fms (some mux) (some pl) (some loc) (some rem) i =
        CallResult.ok (fms pl loc rem i) ∧
    transport_media_stop mstop (some mux) = CallResult.ok mstop ∧
    transport_simulate_lost fsl (some mux) dir pct =
        CallResult.ok (fsl dir pct) := by
  refine ⟨rfl, rfl, ?_, ?_, ?_, ?_, ?_, ?_, ?_, ?_, ?_⟩
  · intro t p l r h
    rcases t with _ | t <;> rcases p with _ | p <;>
      rcases l with _ | l <;> rcases r with _ | r <;>
      simp_all [transport_media_start]
  · simp [transport_send_rtp, hmem]
  · simp [transport_send_rtcp, transport_send_rtcp2, hmem]
  · simp [transport_send_rtcp2, hmem]
  · simp [transport_get_info, hmem]
  · simp [transport_media_create, hmem]
  · simp [transport_media_start, hmem]
  · simp [transport_media_stop, hmem]
  · simp [transport_simulate_lost, hmem]

/-- Witness for the amended C4 at concrete oracles and arguments. -/
theorem forwarding_ops_amended_witness :
    sampleAttached.member_tp = true ∧
    transport_simulate_lost (fun _ _ => 9) none 1 2 =
        CallResult.ok PJ_EINVAL ∧
    transport_send_rtp (fun _ _ => 42) (some sampleAttached) [1] 1 =
        CallResult.ok 42 ∧
    transport_media_start (fun _ _ _ _ => 8) (some sampleAttached) (some 3)
        (some sampleSdp) (some sampleSdp) 0 = CallResult.ok 8 := by
  have h := forwarding_ops_amended (fun _ _ => 42) 5 6 (fun _ _ _ _ => 7)
    (fun _ _ _ _ => 8) (fun _ _ => 9) sampleAttached (by decide)
    [1] 1 none 0 3 sampleSdp sampleSdp none none 0 0 1 2
  exact ⟨by decide, h.1, h.2.2.2.1, h.2.2.2.2.2.2.2.2.1⟩

/-- C3: with a non-null mux (member transport present), pool and local
description and an in-range media index, `transport_encode_sdp`
forwards to the member transport (modelled at its interface boundary
as a status oracle) and then — regardless of that status — appends
exactly one value-less `"rtcp-mux"` attribute to the local media
description at `media_index`, returning the member's status verbatim;
each call appends one more such attribute no matter how many are
already present (no deduplication, so two calls append two); with a
NULL mux, pool or local description it returns `PJ_EINVAL` and leaves
the local description unchanged. -/
theorem transport_encode_sdp_spec
    (f : sdp_session → Option sdp_session → Nat → pj_status_t)
    (mux : transport_mux) (pool : Nat) (loc : sdp_session)
    (rem : Option sdp_session) (i : Nat)
    (hmem : mux.member_tp = true) (hi : i < loc.media.length) :
    transport_encode_sdp f (some mux) (some pool) (some loc) rem i =
      EncodeResult.ret (f loc rem i)
        (some { media := loc.media.set i (pjmedia_sdp_media_add_attr loc.media[i] rtcpMuxAttr) }) ∧
    (∀ m : sdp_media,
      rtcpMuxCount (pjmedia_sdp_media_add_attr m rtcpMuxAttr) =
        rtcpMuxCount m + 1) ∧
    (∀ pl lo rm j, transport_encode_sdp f none pl lo rm j =
        EncodeResult.ret PJ_EINVAL lo) ∧
    (∀ t lo rm j, transport_encode_sdp f t none lo rm j =
        EncodeResult.ret PJ_EINVAL lo) ∧
    (∀ t pl rm j, transport_encode_sdp f t pl none rm j =
        EncodeResult.ret PJ_EINVAL none) := by
  refine ⟨?_, ?_, ?_, ?_, ?_⟩
  · simp only [transport_encode_sdp, List.getElem?_eq_getElem hi, hmem,
      if_true]
  · intro m
    simp [rtcpMuxCount, pjmedia_sdp_media_add_attr, rtcpMuxAttr,
      List.countP_append, List.countP_cons]
  · intro pl lo rm j
    cases pl <;> cases lo <;> rfl
  · intro t lo rm j
    cases t <;> cases lo <;> rfl
  · intro t pl rm j
    cases t <;> cases pl <;> rfl

/-- Witness for C3: encoding over a one-media-line local description
appends the `"rtcp-mux"` attribute and returns the member's status. -/
theorem transport_encode_sdp_spec_witness :
    sampleAttached.member_tp = true ∧ 0 < sampleSdp.media.length ∧
    transport_encode_sdp (fun _ _ _ => 55) (some sampleAttached) (some 0)
        (some sampleSdp) none 0 =
      EncodeResult.ret 55 (some { media := [oneRtcpMuxMedia] }) ∧
    rtcpMuxCount (pjmedia_sdp_media_add_attr oneRtcpMuxMedia rtcpMuxAttr) =
      rtcpMuxCount oneRtcpMuxMedia + 1 := by
  have h := transport_encode_sdp_spec (fun _ _ _ => 55) sampleAttached 0
    sampleSdp none 0 (by decide) (by decide)
  exact ⟨by decide, by decide, h.1, h.2.1 _⟩

/-- C10: the unchecked `sdp_local->media[media_index]` access in
`transport_encode_sdp` happens before the member transport is
consulted: for any index at or beyond the media count the
out-of-bounds branch is taken, identically for every member encode
oracle, while for an in-range index the access is in bounds and that
branch is not taken. -/
theorem transport_encode_sdp_bounds
    (mux : transport_mux) (pool : Nat) (loc : sdp_session)
    (rem : Option sdp_session) (i : Nat) :
    (loc.media.length ≤ i →
      ∀ f g : sdp_session → Option sdp_session → Nat → pj_status_t,
        transport_encode_sdp f (some mux) (some pool) (some loc) rem i =
          EncodeResult.mediaIndexOutOfBounds ∧
        transport_encode_sdp f (some mux) (some pool) (some loc) rem i =
          transport_encode_sdp g (some mux) (some pool) (some loc) rem i) ∧
    (i < loc.media.length →
      ∀ f : sdp_session → Option sdp_session → Nat → pj_status_t,
        transport_encode_sdp f (some mux) (some pool) (some loc) rem i ≠
          EncodeResult.mediaIndexOutOfBounds) := by
  constructor
  · intro h f g
    have hnone : loc.media[i]? = none := by
      rw [List.getElem?_eq_none_iff]
      exact h
    constructor <;> simp only [transport_encode_sdp, hnone]
  · intro h f
    have hget : loc.media[i]? = some loc.media[i] :=
      List.getElem?_eq_getElem h
    simp only [transport_encode_sdp, hget]
    by_cases hm : mux.member_tp <;> simp [hm]

/-- Witness for C10: on a one-media-line description, index 5 reaches
the out-of-bounds branch while index 0 does not. -/
theorem transport_encode_sdp_bounds_witness :
    sampleSdp.media.length ≤ 5 ∧
    transport_encode_sdp (fun _ _ _ => 55) (some sampleAttached) (some 0)
        (some sampleSdp) none 5 = EncodeResult.mediaIndexOutOfBounds ∧
    (0 < sampleSdp.media.length ∧
     transport_encode_sdp (fun _ _ _ => 55) (some sampleAttached) (some 0)
        (some sampleSdp) none 0 ≠ EncodeResult.mediaIndexOutOfBounds) := by
  refine ⟨by decide, ?_, by decide, ?_⟩
  · exact ((transport_encode_sdp_bounds sampleAttached 0 sampleSdp none
      5).1 (by decide) (fun _ _ _ => 55) (fun _ _ _ => 0)).1
  · exact (transport_encode_sdp_bounds sampleAttached 0 sampleSdp none
      0).2 (by decide) (fun _ _ _ => 55)

end TransportMux
